import Mathlib

/-!
Verification of the `gorc` query `eth` subcommand module
(`src/orchestrator/gorc/src/commands/query/eth.rs`).

The Rust module declares:
 - an enum `Eth` with a single variant `Balance(Balance)`, whose `Runnable`
   implementation `Eth::run` has an empty body;
 - a struct `Balance { free: Vec<String>, help: bool }` whose `run` asserts
   `self.free.len() == 1` and then clones `self.free[0]` into `key_name`;
 - a struct `Contract { free: Vec<String>, help: bool }` whose `run` has an
   empty body, and which has no corresponding variant in `Eth`.

The shallow embedding below models each `run` as a total function from the
parsed-argument state to a result recording: the outcome (normal return,
normal return capturing a key name, or a fatal assertion abort), the list of
output lines emitted (always empty — the source prints nothing), and the
final parsed-argument state (Rust `run` takes `&self`, so the state is
returned unchanged; a panic unwinds without mutating it).
-/

namespace GravityBridge

/-- Outcome of running a handler: `unit` is a normal return with nothing
captured, `captured k` is a normal return that captured `k` as the key name,
`aborted` is a fatal assertion failure (Rust `assert!` panic). -/
inductive Outcome where
  | unit : Outcome
  | captured : String → Outcome
  | aborted : Outcome
deriving DecidableEq, Repr

/-- Result of a handler invocation over state type `σ`: the outcome, the
lines of observable output emitted, and the parsed-argument state after the
call. -/
structure RunResult (σ : Type) where
  outcome : Outcome
  output : List String
  state : σ
deriving DecidableEq, Repr

/-- The `Balance` argument struct: free positional tokens and a help flag
(`#[options(free)] free: Vec<String>`, `help: bool`). -/
structure Balance where
  free : List String
  help : Bool
deriving DecidableEq, Repr

/-- The `Contract` argument struct: identical field layout to `Balance`
(free positional tokens and a help flag). -/
structure Contract where
  free : List String
  help : Bool
deriving DecidableEq, Repr

/-- The `Eth` dispatch enum. The source declares exactly one variant,
`Balance(Balance)`; there is no `Contract` variant. -/
inductive Eth where
  | balance : Balance → Eth
deriving DecidableEq, Repr

/-- `Balance::run`: `assert!(self.free.len() == 1)` — a fatal abort when the
count of free tokens is not one — then `let key_name = self.free[0].clone()`.
Nothing is printed and `self` is not mutated. -/
def Balance.run (self : Balance) : RunResult Balance :=
  if h : self.free.length = 1 then
    ⟨Outcome.captured (self.free.get ⟨0, by omega⟩), [], self⟩
  else
    ⟨Outcome.aborted, [], self⟩

/-- `Eth::run`: the body is empty (`// Your code goes here`); it returns
normally with no output and no mutation, whichever variant `self` is. -/
def Eth.run (self : Eth) : RunResult Eth :=
  ⟨Outcome.unit, [], self⟩

/-- `Contract::run`: the body is empty; it returns normally with no output
and no mutation, for every argument state. -/
def Contract.run (self : Contract) : RunResult Contract :=
  ⟨Outcome.unit, [], self⟩

/-- Subcommand-name resolution for the `Eth` enum as derived by the command
framework from the declaration in the source: the single variant `Balance`
answers to the name "balance" and carries the remaining parsed arguments;
no other name resolves to a variant. -/
def Eth.resolve (name : String) (free : List String) (help : Bool) : Option Eth :=
  if name = "balance" then some (Eth.balance ⟨free, help⟩) else none

/-- Field-preserving conversion from `Contract` to `Balance`, witnessing
that the two structs have the same shape. -/
def contractToBalance (c : Contract) : Balance :=
  ⟨c.free, c.help⟩

/-- Field-preserving conversion from `Balance` to `Contract`, inverse of
`contractToBalance`. -/
def balanceToContract (b : Balance) : Contract :=
  ⟨b.free, b.help⟩

/-- Helper: the outcome of `Balance::run` is the assertion abort exactly
when the free-token count differs from one. -/
lemma balance_run_outcome_aborted_iff (b : Balance) :
    (Balance.run b).outcome = Outcome.aborted ↔ b.free.length ≠ 1 := by
  unfold Balance.run
  split
  · rename_i h
    simp [h]
  · rename_i h
    simp [h]

/-- C1: `Balance::run` aborts fatally iff the number of free positional
tokens is not exactly one; with exactly one free token it accepts without
aborting and captures that token as the key name. -/
theorem balance_run_aborts_iff (b : Balance) :
    ((Balance.run b).outcome = Outcome.aborted ↔ b.free.length ≠ 1)
    ∧ (∀ k, b.free = [k] → (Balance.run b).outcome = Outcome.captured k) := by
  constructor
  · exact balance_run_outcome_aborted_iff b
  · intro k hk
    unfold Balance.run
    split
    · rename_i h
      simp [hk]
    · rename_i h
      exact absurd (by simp [hk]) h

/-- Witness for C1 at the concrete input `free = ["mykey"], help = false`:
the abort condition is equivalent to the token count differing from one, and
the single token "mykey" is captured as the key name. -/
theorem balance_run_aborts_iff_witness :
    ((Balance.run ⟨["mykey"], false⟩).outcome = Outcome.aborted
      ↔ (["mykey"] : List String).length ≠ 1)
    ∧ (Balance.run ⟨["mykey"], false⟩).outcome = Outcome.captured "mykey" :=
  ⟨(balance_run_aborts_iff ⟨["mykey"], false⟩).1,
   (balance_run_aborts_iff ⟨["mykey"], false⟩).2 "mykey" rfl⟩

/-- C2: `Contract` has the same shape as `Balance` — the field-preserving
conversions are mutually inverse — yet every value of the `Eth` dispatch
enum is built from the `Balance` variant, so no `Eth` value carries a
`Contract` and none can reach `Contract`'s handler. -/
theorem contract_not_in_eth :
    (∀ c : Contract, balanceToContract (contractToBalance c) = c)
    ∧ (∀ b : Balance, contractToBalance (balanceToContract b) = b)
    ∧ (∀ e : Eth, ∃ b : Balance, e = Eth.balance b) := by
  refine ⟨fun c => rfl, fun b => rfl, fun e => ?_⟩
  cases e with
  | balance b => exact ⟨b, rfl⟩

/-- C3 counterexample: the subcommand name "contract" (with the free tokens
of spec scenario 4, `["contract", "x"]`) resolves to no variant of the `Eth`
dispatch enum, refuting the claim that every name among "balance" and
"contract" resolves to exactly one variant whose handler is invoked. -/
theorem contract_does_not_resolve :
    Eth.resolve "contract" ["x"] false = none := by
  rfl

/-- C3 amended: the name "balance" resolves to exactly the `Balance` variant
carrying the parsed arguments, the name "contract" resolves to no variant,
and `Eth::run` does not invoke the resolved variant's handler (there is a
`Balance` state whose own handler aborts while dispatching through
`Eth::run` returns normally). -/
theorem eth_dispatch_amended :
    (∀ free help, Eth.resolve "balance" free help = some (Eth.balance ⟨free, help⟩))
    ∧ (∀ free help, Eth.resolve "contract" free help = none)
    ∧ (∃ b : Balance, (Balance.run b).outcome = Outcome.aborted
        ∧ (Eth.run (Eth.balance b)).outcome = Outcome.unit) := by
  refine ⟨fun free help => rfl, fun free help => rfl, ⟨⟨[], false⟩, ?_, rfl⟩⟩
  rfl

/-- C4: `Eth::run` performs no observable action for every value of the
enum — it emits no output, leaves the state unchanged, and returns `unit`
without invoking the variant's handler: there is a `Balance` payload whose
own handler would abort, yet `Eth::run` on it still returns normally. -/
theorem eth_run_inert :
    (∀ e : Eth, Eth.run e = ⟨Outcome.unit, [], e⟩)
    ∧ (∃ b : Balance, (Balance.run b).outcome ≠ (Eth.run (Eth.balance b)).outcome) := by
  refine ⟨fun e => rfl, ⟨⟨[], false⟩, ?_⟩⟩
  decide

/-- C5: when `Balance::run` receives exactly one free token, its entire
result is the captured key name, an empty output trace, and the unchanged
state — no balance lookup, signing, or network effect. -/
theorem balance_run_single_token_frame (b : Balance) (k : String)
    (hk : b.free = [k]) :
    Balance.run b = ⟨Outcome.captured k, [], b⟩ := by
  unfold Balance.run
  split
  · rename_i h
    simp [hk]
  · rename_i h
    exact absurd (by simp [hk]) h

/-- Witness for C5 at the concrete input of spec scenario 1,
`free = ["mykey"], help = false`. -/
theorem balance_run_single_token_frame_witness :
    Balance.run ⟨["mykey"], false⟩
      = ⟨Outcome.captured "mykey", [], ⟨["mykey"], false⟩⟩ :=
  balance_run_single_token_frame ⟨["mykey"], false⟩ "mykey" rfl

/-- C6: the only failure mode of the module is the argument-count assertion
of `Balance::run`: it aborts exactly when the free-token count is not one
and emits no message of its own, while `Eth::run` and `Contract::run` never
abort on any input. -/
theorem only_failure_mode :
    (∀ b : Balance, ((Balance.run b).outcome = Outcome.aborted ↔ b.free.length ≠ 1)
      ∧ (Balance.run b).output = [])
    ∧ (∀ e : Eth, (Eth.run e).outcome ≠ Outcome.aborted)
    ∧ (∀ c : Contract, (Contract.run c).outcome ≠ Outcome.aborted) := by
  refine ⟨fun b => ⟨?_, ?_⟩, fun e => by simp [Eth.run], fun c => by simp [Contract.run]⟩
  · unfold Balance.run
    split
    · rename_i h
      simp [h]
    · rename_i h
      simp [h]
  · unfold Balance.run
    split <;> rfl

/-- C7: every handler invocation runs to completion — for every input each
of `Eth::run`, `Balance::run` and `Contract::run` is a total function whose
outcome is a normal return, a captured key name, or the assertion abort. -/
theorem handlers_terminate :
    (∀ e : Eth, (Eth.run e).outcome = Outcome.unit)
    ∧ (∀ b : Balance, (Balance.run b).outcome = Outcome.aborted
        ∨ ∃ k, (Balance.run b).outcome = Outcome.captured k)
    ∧ (∀ c : Contract, (Contract.run c).outcome = Outcome.unit) := by
  refine ⟨fun e => rfl, fun b => ?_, fun c => rfl⟩
  unfold Balance.run
  split
  · rename_i h
    exact Or.inr ⟨_, rfl⟩
  · exact Or.inl rfl

/-- C8: the accept-versus-abort outcome of `Balance::run` depends only on
the number of free tokens: two states with equally many free tokens — the
tokens themselves and the help flags may differ — either both abort or both
accept; in particular `help = true` does not suppress the abort. -/
theorem balance_run_count_determines_abort (b₁ b₂ : Balance)
    (hlen : b₁.free.length = b₂.free.length) :
    (Balance.run b₁).outcome = Outcome.aborted
      ↔ (Balance.run b₂).outcome = Outcome.aborted := by
  rw [balance_run_outcome_aborted_iff b₁, balance_run_outcome_aborted_iff b₂, hlen]

/-- Witness for C8 at the concrete pair `⟨["a", "b"], false⟩` and
`⟨["x", "y"], true⟩`: same token count, different tokens and help flags,
and the two aborts are equivalent (both hold). -/
theorem balance_run_count_determines_abort_witness :
    ((Balance.run ⟨["a", "b"], false⟩).outcome = Outcome.aborted
      ↔ (Balance.run ⟨["x", "y"], true⟩).outcome = Outcome.aborted)
    ∧ (Balance.run ⟨["a", "b"], false⟩).outcome = Outcome.aborted :=
  ⟨balance_run_count_determines_abort ⟨["a", "b"], false⟩ ⟨["x", "y"], true⟩ rfl,
   by decide⟩

/-- C9: `Contract::run` never aborts and performs no action: for every
argument state — zero, one, or many free tokens, either help flag — it
returns normally with no output and the state unchanged. -/
theorem contract_run_never_aborts :
    ∀ c : Contract, Contract.run c = ⟨Outcome.unit, [], c⟩ :=
  fun _ => rfl

/-- C10: no `run` method mutates its parsed-argument state: the state
component of every result equals the input state, including on the path
where `Balance::run` aborts. -/
theorem run_state_unchanged :
    (∀ e : Eth, (Eth.run e).state = e)
    ∧ (∀ b : Balance, (Balance.run b).state = b)
    ∧ (∀ c : Contract, (Contract.run c).state = c) := by
  refine ⟨fun e => rfl, fun b => ?_, fun c => rfl⟩
  unfold Balance.run
  split <;> rfl

end GravityBridge
